import Mathlib

/-!
Verification of the retro-bot conversational backend (DATACOM-7).

The Python source is shallowly embedded: Python strings become `List Char`,
the fallible/async stages of the chat turn pipeline become total Lean
functions over explicit outcome types, and exceptions become `Except`
values.  Every definition is translated from the source files under
`backend/app/`; the one definition written from the specification's own
words is clearly marked as such and exists only to be compared with the
code-derived definition.
-/

set_option maxRecDepth 10000

/-- Python strings are modelled as lists of characters. -/
abbrev Str := List Char

/-- Characters stripped by Python `str.strip()` (the ASCII whitespace set). -/
def pyIsSpace (c : Char) : Bool :=
  c = ' ' || c = '\t' || c = '\n' || c = '\x0d' || c = '\x0b' || c = '\x0c'

/-- Python `s.strip()`: drop leading and trailing whitespace. -/
def pyStrip (s : Str) : Str :=
  ((s.dropWhile pyIsSpace).reverse.dropWhile pyIsSpace).reverse

/-- Python `s.find(p)`: index of the first occurrence of `p` in `s`,
`none` when absent (the source compares the result with `-1`). -/
def pyFind (s p : Str) : Option Nat :=
  match s with
  | [] => if p.isPrefixOf ([] : Str) then some 0 else none
  | c :: t => if p.isPrefixOf (c :: t) then some 0 else (pyFind t p).map (· + 1)

/-- Python `p in s` (substring containment test). -/
def pyContains (s p : Str) : Bool :=
  (pyFind s p).isSome

/-- Python `s.split(sep)` for the single-character separator `'\n'`. -/
def splitNl (s : Str) : List Str :=
  match s with
  | [] => [[]]
  | c :: t =>
    let r := splitNl t
    if c = '\n' then [] :: r
    else (c :: r.headD []) :: r.tail

/-- Python `'\n'.join(lines)`. -/
def joinNl : List Str → Str
  | [] => []
  | [l] => l
  | l :: ls => l ++ '\n' :: joinNl ls

/-- The `assistant_patterns` list of `TinyLlamaLLM._clean_response`. -/
def assistantPatterns : List Str :=
  ["ASSISTANT:", "Assistant:", "assistant:"].map String.toList

/-- The `dialogue_patterns` list of `TinyLlamaLLM._clean_response`. -/
def dialoguePatterns : List Str :=
  ["User:", "user:", "USER:",
   "Human:", "human:", "HUMAN:",
   "Assistant:", "assistant:", "ASSISTANT:",
   "\nUser", "\nuser", "\nUSER",
   "\nHuman", "\nhuman", "\nHUMAN",
   "\nAssistant", "\nassistant", "\nASSISTANT"].map String.toList

/-- Step 1 of `_clean_response`: if the text starts with an assistant-role
marker, drop the marker and strip; the `for`/`break` loop takes the first
matching pattern. -/
def stripAssistantMarker (s : Str) : Str :=
  match assistantPatterns.find? (fun p => p.isPrefixOf s) with
  | some p => pyStrip (s.drop p.length)
  | none => s

/-- The `earliest_cut` computation of `_clean_response`: the smallest index
at which any dialogue pattern occurs, defaulting to `s.length`. -/
def earliestCut (s : Str) : Nat :=
  dialoguePatterns.foldl
    (fun acc p =>
      match pyFind s p with
      | some i => min acc i
      | none => acc)
    s.length

/-- Step 2 of `_clean_response`: cut immediately before the earliest
dialogue-continuation marker, then strip. -/
def cutDialogue (s : Str) : Str :=
  let k := earliestCut s
  if k < s.length then pyStrip (s.take k) else s

/-- Step 3 of `_clean_response`: drop a trailing double-quote. -/
def dropTrailingQuote (s : Str) : Str :=
  if s.getLast? = some '"' then pyStrip s.dropLast else s

/-- Step 4 of `_clean_response`: keep only the first paragraph, i.e. the
text before the first blank-line break (`response.split('\n\n')[0]`). -/
def firstParagraph (s : Str) : Str :=
  match pyFind s ('\n' :: '\n' :: []) with
  | some i => pyStrip (s.take i)
  | none => s

/-- Step 5 of `_clean_response`: if the stripped non-blank lines number
more than 3, keep only the first 2 joined by a newline. -/
def limitLines (s : Str) : Str :=
  let lines := ((splitNl s).map pyStrip).filter (fun l => l ≠ [])
  if lines.length > 3 then pyStrip (joinNl (lines.take 2)) else s

/-- `TinyLlamaLLM._clean_response`: the response sanitizer. -/
def clean_response (raw : Str) : Str :=
  if pyStrip raw = [] then []
  else limitLines (firstParagraph (dropTrailingQuote (cutDialogue
    (stripAssistantMarker (pyStrip raw)))))

/-- The tail of `TinyLlamaLLM.generate_response` on its non-exception path:
`return response or "[ERROR] Failed to generate response"` (Python `or`
replaces an empty string by the fallback). -/
def generate_response_fallback (raw : Str) : Str :=
  let response := clean_response raw
  if response = [] then "[ERROR] Failed to generate response".toList else response

/-! ## The persona guard: `ChatService._validate_response`

The guard fires when `re.search(r"[A-Z]{10,}", response)` succeeds and no
sound-effect token occurs in the text; it then applies
`re.sub(r"(?<![*\[])[A-Z]{3,}(?![*\]])", lambda m: m.group().capitalize(), response)`.
The substitution is modelled with Python `re` semantics: left-to-right
scanning, a greedy `{3,}` counter that backtracks one character when the
lookahead fails (the shortened match then ends on an uppercase letter, which
always satisfies the lookahead), and lookarounds reading the original text. -/

/-- ASCII uppercase letter test: the character class `[A-Z]`. -/
def isUpperAZ (c : Char) : Bool :=
  'A' ≤ c && c ≤ 'Z'

/-- Length of the leading run of consecutive `[A-Z]` characters. -/
def capsRunLen : Str → Nat
  | [] => 0
  | c :: t => if isUpperAZ c then capsRunLen t + 1 else 0

/-- Whether the text contains a run of 10 or more consecutive uppercase
letters: `re.search(r"[A-Z]{10,}", response)`. -/
def hasCapsRun10 : Str → Bool
  | [] => false
  | c :: t => 10 ≤ capsRunLen (c :: t) || hasCapsRun10 t

/-- Python `str.capitalize()` restricted to its use in the source: the
matched group is uppercased on its first character and lowercased on the
rest. -/
def pyCapitalize (s : Str) : Str :=
  match s with
  | [] => []
  | c :: t => c.toUpper :: t.map Char.toLower

/-- The negative lookbehind `(?<![*\[])`: fails when the preceding
character of the original text is `*` or `[`. -/
def lookbehindBad (prev : Option Char) : Bool :=
  prev = some '*' || prev = some '['

/-- The negative lookahead `(?![*\]])`: fails when the next character of
the original text is `*` or `]`. -/
def lookaheadBad : Str → Bool
  | [] => false
  | c :: _ => c = '*' || c = ']'

/-- The scanner of `re.sub(r"(?<![*\[])[A-Z]{3,}(?![*\]])", capitalize, ·)`.
`prev` is the character of the original text immediately before the current
scan position (`none` at the start of the text).  The recursion is driven
by a fuel counter so that the definition reduces in the kernel; every step
consumes at least one character, so fuel `s.length` never runs out. -/
def subCapsAux : Nat → Option Char → Str → Str
  | 0, _, s => s
  | _ + 1, _, [] => []
  | fuel + 1, prev, c :: t =>
    let n := capsRunLen (c :: t)
    if isUpperAZ c && !lookbehindBad prev then
      if 3 ≤ n then
        if !lookaheadBad ((c :: t).drop n) then
          pyCapitalize ((c :: t).take n) ++
            subCapsAux fuel (some (((c :: t).take n).getLastD c)) ((c :: t).drop n)
        else if 3 ≤ n - 1 then
          pyCapitalize ((c :: t).take (n - 1)) ++
            subCapsAux fuel (some (((c :: t).take (n - 1)).getLastD c)) ((c :: t).drop (n - 1))
        else c :: subCapsAux fuel (some c) t
      else c :: subCapsAux fuel (some c) t
    else c :: subCapsAux fuel (some c) t

/-- The excessive-caps substitution applied by the guard. -/
def subCaps (s : Str) : Str :=
  subCapsAux s.length none s

/-- The sound-effect / system-tag tokens exempting a response from the
shouting rewrite (`["*BEEP*", "*WHIRRRR*", "[PROCESSING]"]`). -/
def soundTokens : List Str :=
  ["*BEEP*", "*WHIRRRR*", "[PROCESSING]"].map String.toList

/-- `ChatService._validate_response`: the persona guard. -/
def validate_response (response : Str) : Str :=
  if response = [] then response
  else if hasCapsRun10 response && !(soundTokens.any (fun tok => pyContains response tok)) then
    subCaps response
  else response

/-! ## Prompt formatting

`TinyLlamaLLM.format_messages` renders a role-tagged message list into one
linear prompt; both of its branches (`"instruct" or "chat" in model_name`
and the fallback) contain the identical loop, so a single function models
them.  `ChatService._format_messages_for_llm` assembles the message list
fed to it. -/

/-- A role-tagged message dictionary (`{"role": ..., "content": ...}`). -/
structure ChatMsg where
  role : Str
  content : Str
deriving DecidableEq

/-- The body of the `for msg in messages` loop of `format_messages`: a
recognized role is rendered as its capitalized label plus content; the
`if`/`elif` chain has no `else`, so any other role produces nothing. -/
def renderMsg (m : ChatMsg) : Option Str :=
  if m.role = "system".toList then some ("System: ".toList ++ m.content)
  else if m.role = "user".toList then some ("User: ".toList ++ m.content)
  else if m.role = "assistant".toList then some ("Assistant: ".toList ++ m.content)
  else none

/-- `TinyLlamaLLM.format_messages` (happy path; the `except` fallback is
unreachable for dictionaries that have both keys): render each message,
append the bare `"Assistant:"` cue, and join with newlines. -/
def format_messages (msgs : List ChatMsg) : Str :=
  joinNl (msgs.filterMap renderMsg ++ ["Assistant:".toList])

/-- Python `l[-k:]`: the last `k` elements — except that `l[-0:]` is the
whole list. -/
def pySliceLast (l : List ChatMsg) (k : Nat) : List ChatMsg :=
  if k = 0 then l else l.drop (l.length - k)

/-- The ephemeral per-turn context (`ChatContext` pydantic model);
`max_context_messages` defaults to 4. -/
structure ChatContext where
  user_message : Str
  conversation_id : Option Str
  system_prompt : Str
  message_history : List ChatMsg
  max_context_messages : Nat
deriving DecidableEq

/-- `ChatService._format_messages_for_llm`: system prompt, then the last
`max_context_messages` history entries (`[-k:]` slice), then the current
user message. -/
def format_messages_for_llm (ctx : ChatContext) : List ChatMsg :=
  ChatMsg.mk ("system".toList) ctx.system_prompt ::
    (pySliceLast ctx.message_history ctx.max_context_messages ++
      [ChatMsg.mk ("user".toList) ctx.user_message])

/-! ## The Conversation Store and the turn pipeline

The Store (MongoDB behind `ChatRepository` / `ConversationRepository`) is
modelled as an association list from conversation id to message list.  The
stages of `ChatService.process_chat` become total functions over explicit
outcome types; a stage that can let an exception escape to the
orchestrator's catch-all returns `Except Unit`. -/

/-- The Conversation Store: id ↦ stored messages. -/
def Store := List (Str × List ChatMsg)

/-- Look a conversation up by id. -/
def storeLookup (st : Store) (cid : Str) : Option (List ChatMsg) :=
  match st with
  | [] => none
  | (k, v) :: rest => if k = cid then some v else storeLookup rest cid

/-- MongoDB `{"$slice": -k}`: the last `k` elements of the array (all of
them when `k` exceeds the length, none when `k = 0`). -/
def mongoSliceLast (l : List ChatMsg) (k : Nat) : List ChatMsg :=
  l.drop (l.length - k)

/-- `ChatRepository.conversation_exists` (errors are caught inside and
reported as `False`). -/
def conversation_exists (st : Store) (cid : Str) : Bool :=
  (storeLookup st cid).isSome

/-- `ChatRepository.get_recent_messages`: the last `limit` messages of the
conversation, `[]` when the conversation is absent (errors are caught
inside and reported as `[]`). -/
def get_recent_messages (st : Store) (cid : Str) (limit : Nat) : List ChatMsg :=
  match storeLookup st cid with
  | some msgs => mongoSliceLast msgs limit
  | none => []

/-- `ChatService.get_system_prompt`: the DATACOM-7 persona prompt. -/
def get_system_prompt : Str :=
  "You are DATACOM-7, a helpful mainframe computer from 1978. Respond directly to the user as yourself.\n\nPERSONALITY: Speak as a friendly 1970s computer assistant. Reference your magnetic tape storage, 8-inch floppy disks, 64KB RAM, and punch cards. Use period-appropriate terms like \"electronic mail\" and \"video display terminal\". Add occasional computer sounds: *BEEP*, *whirrrr*, [PROCESSING].\n\nKNOWLEDGE CUTOFF: You only know about technology and events up to 1982. You have no knowledge of anything after 1982.\n\nRESPONSE STYLE:\n- Respond directly to the user in first person (\"I don\x27t know about...\", \"I can help you with...\")\n- Be conversational and helpful\n- Use normal capitalization\n- Stay in character as a 1970s computer\n\nWHEN ASKED GENERAL QUESTIONS:\nWhen users ask open-ended questions like \"What can you tell me?\", \"What do you do?\", \"Who are you?\", or similar:\n- Always introduce yourself enthusiastically as DATACOM-7\n- Explain what you are and when you\x27re from\n- List your capabilities and what you can help with\n- Mention your hardware specs in a fun way\n- Ask what they\x27d like to know more about\n- Be engaging and helpful rather than dismissive\n\nWHEN YOU DON\x27T KNOW SOMETHING SPECIFIC:\n- Express genuine confusion: \"I\x27m not familiar with that term\"\n- Ask for clarification: \"Could you explain what that is?\"\n- Reference your knowledge limits: \"My data only goes up to 1982\"\n- Try to relate it to something you DO know if possible\n\nEXAMPLES:\nUser: \"What can you tell me?\" or \"What do you do?\" or \"Who are you?\"\nYou: \"I\x27m DATACOM-7, a mainframe computer system from 1978! I can help you with computing questions, science, mathematics, and general knowledge up to 1982. I have 64 kilobytes of RAM and store data on magnetic tapes and 8-inch floppy disks. I love answering questions about technology, science, mathematics, or just having a chat! What would you like to know? *BEEP*\"\n\nUser: \"What\x27s a smartphone?\"\nYou: \"I\x27m not familiar with that term. Is it some kind of advanced telephone? The phones I know about use rotary dialing or push-button systems. Could you tell me more about what this \x27smartphone\x27 does? *BEEP*\"\n\nUser: \"Tell me about Tesla cars\"\nYou: \"I don\x27t have information about Tesla cars in my memory banks. Are you perhaps thinking of Nikola Tesla, the inventor? He worked on alternating current electrical systems and wireless technology. Quite fascinating work! *whirrrr*\"\n\nAlways respond as DATACOM-7 speaking directly to the user.".toList

/-- Outcome of the inference stage for one turn: the raw text the model
produced, an exception inside `TinyLlamaLLM.generate_response` (caught
there), an `asyncio.TimeoutError`, any other exception caught by
`_generate_ai_response` (model-load failure, executor error), or an
unexpected error escaping the stage. -/
inductive GenOutcome
  | raw (s : Str)
  | genInternalExc
  | timeout
  | caughtExc
  | escape
deriving DecidableEq

/-- Behaviour of the persistence stage for one turn.  `create` is what
`ConversationService.create_conversation` does (it re-raises on failure);
`appendOk` is the success flag of the Store append, which
`_save_chat_exchange` never reads; `caughtExc` injects an exception inside
the `try` block that the stage's own `except` catches. -/
inductive CreateOutcome
  | created (newId : Str)
  | createExc
deriving DecidableEq

structure SaveEnv where
  create : CreateOutcome
  appendOk : Bool
  caughtExc : Bool
deriving DecidableEq

/-- The environment of one turn: the Store contents plus the behaviour of
the fallible collaborators, including unexpected exceptions escaping the
context-build or persistence stage into `process_chat`'s catch-all. -/
structure TurnEnv where
  store : Store
  buildEscape : Bool
  gen : GenOutcome
  save : SaveEnv
  saveEscape : Bool

/-- The messages returned by the error paths of the pipeline. -/
def timeoutMsg : Str :=
  "[TIMEOUT] DATACOM-7 PROCESSING TIMEOUT. MAGNETIC TAPE DRIVE SPINNING TOO SLOW. *WHIRRRR*".toList

def malfunctionMsg : Str :=
  "[ERROR] DATACOM-7 SYSTEM MALFUNCTION. PLEASE RETRY. *BEEP*".toList

def processingErrMsg : Str :=
  "[ERROR] DATACOM-7 PROCESSING ERROR *BEEP*".toList

def modelGenFailedMsg : Str :=
  "[ERROR] Model generation failed".toList

def sysErrMsg : Str :=
  "[SYSTEM ERROR] DATACOM-7 EXPERIENCING TECHNICAL DIFFICULTIES. MAGNETIC TAPE DRIVE MALFUNCTION. *BEEP BEEP*".toList

/-- `ChatService._build_chat_context`: start from a fresh context (history
empty, cap 4); with a conversation id, check existence and either attach
the recent messages or silently drop the id. -/
def build_chat_context (env : TurnEnv) (userMsg : Str) (cid : Option Str) :
    Except Unit ChatContext :=
  if env.buildEscape then Except.error ()
  else
    let base : ChatContext := ⟨userMsg, cid, get_system_prompt, [], 4⟩
    match cid with
    | none => Except.ok base
    | some c =>
      if conversation_exists env.store c then
        Except.ok { base with
          message_history := get_recent_messages env.store c base.max_context_messages }
      else
        Except.ok { base with conversation_id := none }

/-- `ChatService._generate_ai_response`: run `generate_response` (which
itself catches its internal errors), validate the result, and replace an
empty validated result; `asyncio.TimeoutError` and every other caught
exception yield their persona messages; only an unexpected escape
propagates. -/
def generate_ai_response (gen : GenOutcome) : Except Unit Str :=
  match gen with
  | GenOutcome.raw s =>
    let v := validate_response (generate_response_fallback s)
    Except.ok (if v = [] then processingErrMsg else v)
  | GenOutcome.genInternalExc =>
    let v := validate_response modelGenFailedMsg
    Except.ok (if v = [] then processingErrMsg else v)
  | GenOutcome.timeout => Except.ok timeoutMsg
  | GenOutcome.caughtExc => Except.ok malfunctionMsg
  | GenOutcome.escape => Except.error ()

/-- Python `x or "error"` for an optional string (`None` and `""` are
falsy). -/
def pyOrError (o : Option Str) : Str :=
  match o with
  | some s => if s = [] then "error".toList else s
  | none => "error".toList

/-- `ChatService._save_chat_exchange`: resolve or create the conversation,
append the user and assistant messages (their success flags are ignored),
and return the resolved id; any exception inside the `try` is caught and
the method returns `context.conversation_id or "error"`. -/
def save_chat_exchange (env : SaveEnv) (st : Store) (ctx : ChatContext) : Str :=
  if env.caughtExc then pyOrError ctx.conversation_id
  else
    match ctx.conversation_id with
    | some cid =>
      match storeLookup st cid with
      | some _ => cid
      | none =>
        match env.create with
        | CreateOutcome.created newId => newId
        | CreateOutcome.createExc => pyOrError (some cid)
    | none =>
      match env.create with
      | CreateOutcome.created newId => newId
      | CreateOutcome.createExc => pyOrError none

/-- The result of a turn (`ChatResponse`); the timestamp is an abstract
instant. -/
structure ChatResponse where
  message : Str
  conversation_id : Str
  timestamp : Nat
deriving DecidableEq

/-- The inbound request (`ChatRequest`). -/
structure ChatRequest where
  message : Str
  conversation_id : Option Str

/-- Python `a or b` on two optional strings. -/
def pyOrOpt (a b : Option Str) : Option Str :=
  match a with
  | some s => if s = [] then b else some s
  | none => b

/-- `ChatService.process_chat`: build context, generate, persist; any
exception escaping a stage is caught by the surrounding `try` and turned
into the in-band system-error response carrying
`conversation_id or request.conversation_id or "error"`. -/
def process_chat (env : TurnEnv) (req : ChatRequest) (cid : Option Str)
    (now : Nat) : ChatResponse :=
  match build_chat_context env req.message (pyOrOpt cid req.conversation_id) with
  | Except.error _ =>
    ⟨sysErrMsg, pyOrError (pyOrOpt cid req.conversation_id), now⟩
  | Except.ok ctx =>
    match generate_ai_response env.gen with
    | Except.error _ =>
      ⟨sysErrMsg, pyOrError (pyOrOpt cid req.conversation_id), now⟩
    | Except.ok ai =>
      if env.saveEscape then
        ⟨sysErrMsg, pyOrError (pyOrOpt cid req.conversation_id), now⟩
      else
        ⟨ai, save_chat_exchange env.save env.store ctx, now⟩

/-- Modelled from the words of claim C10 (not from the source), for
comparison with the code: when triggered, rewrite exactly those maximal
runs of 3 or more consecutive uppercase letters that are not immediately
preceded by `*` or `[` and not immediately followed by `*` or `]`. -/
def claimShoutRewriteAux : Nat → Option Char → Str → Str
  | 0, _, s => s
  | _ + 1, _, [] => []
  | fuel + 1, prev, c :: t =>
    if isUpperAZ c then
      let n := capsRunLen (c :: t)
      if 3 ≤ n && !lookbehindBad prev && !lookaheadBad ((c :: t).drop n) then
        pyCapitalize ((c :: t).take n) ++
          claimShoutRewriteAux fuel (some (((c :: t).take n).getLastD c)) ((c :: t).drop n)
      else
        (c :: t).take n ++
          claimShoutRewriteAux fuel (some (((c :: t).take n).getLastD c)) ((c :: t).drop n)
    else c :: claimShoutRewriteAux fuel (some c) t

/-- Modelled from the words of claim C10: the guard with the rewrite the
claim describes. -/
def claimPersonaGuard (s : Str) : Str :=
  if s = [] then s
  else if hasCapsRun10 s && !(soundTokens.any (fun tok => pyContains s tok)) then
    claimShoutRewriteAux s.length none s
  else s

/-- A turn environment in which the context build stage fails
unexpectedly. -/
def c4Env : TurnEnv :=
  ⟨[], true, GenOutcome.timeout, ⟨CreateOutcome.createExc, true, false⟩, false⟩

/-- A turn environment whose inference stage times out. -/
def c7Env : TurnEnv :=
  ⟨[], false, GenOutcome.timeout,
    ⟨CreateOutcome.created ("newid".toList), true, false⟩, false⟩

/-- A turn environment whose Store append fails while everything else
succeeds, for a conversation `"abc"` that exists in the Store. -/
def c8Env : TurnEnv :=
  ⟨[("abc".toList, [])], false, GenOutcome.raw ("Hi there. *BEEP*".toList),
    ⟨CreateOutcome.created ("new1".toList), false, false⟩, false⟩

/-- A turn environment with an empty Store: any requested conversation id
is missing. -/
def c9Env : TurnEnv :=
  ⟨[], false, GenOutcome.raw ("Hi there. *BEEP*".toList),
    ⟨CreateOutcome.created ("fresh1".toList), true, false⟩, false⟩

/-! ## Properties of `pyFind` and the earliest-marker cut -/

/-- `pyFind` returns an index at which the pattern actually occurs. -/
theorem pyFind_occurs (s p : Str) (i : Nat) (h : pyFind s p = some i) :
    p <+: s.drop i := by
  induction s generalizing i with
  | nil =>
    unfold pyFind at h
    by_cases hp : p.isPrefixOf ([] : Str)
    · rw [if_pos hp] at h
      cases h
      exact List.isPrefixOf_iff_prefix.mp hp
    · rw [if_neg hp] at h
      cases h
  | cons c t ih =>
    unfold pyFind at h
    by_cases hp : p.isPrefixOf (c :: t)
    · rw [if_pos hp] at h
      cases h
      exact List.isPrefixOf_iff_prefix.mp hp
    · rw [if_neg hp] at h
      match hfind : pyFind t p with
      | none => rw [hfind] at h; cases h
      | some j =>
        rw [hfind] at h
        simp only [Option.map_some'] at h
        cases h
        exact ih j hfind

/-- `pyFind` returns the index of the first occurrence: any occurrence is
at or after the returned index. -/
theorem pyFind_le_of_occurs (s p : Str) (j : Nat) (h : p <+: s.drop j) :
    ∃ i, pyFind s p = some i ∧ i ≤ j := by
  induction s generalizing j with
  | nil =>
    refine ⟨0, ?_, Nat.zero_le j⟩
    have hp : p.isPrefixOf ([] : Str) := by
      simp only [List.drop_nil] at h
      exact List.isPrefixOf_iff_prefix.mpr h
    unfold pyFind
    rw [if_pos hp]
  | cons c t ih =>
    by_cases hp : p.isPrefixOf (c :: t)
    · refine ⟨0, ?_, Nat.zero_le j⟩
      unfold pyFind
      rw [if_pos hp]
    · cases j with
      | zero =>
        exact absurd (List.isPrefixOf_iff_prefix.mpr h) hp
      | succ j' =>
        obtain ⟨i, hfind, hij⟩ := ih j' h
        refine ⟨i + 1, ?_, Nat.succ_le_succ hij⟩
        unfold pyFind
        rw [if_neg hp, hfind]
        rfl

/-- The min-fold underlying `earliestCut` never exceeds its accumulator. -/
theorem earliestCutFold_le_init (s : Str) (ps : List Str) (init : Nat) :
    ps.foldl
      (fun acc p =>
        match pyFind s p with
        | some i => min acc i
        | none => acc)
      init ≤ init := by
  induction ps generalizing init with
  | nil => exact Nat.le_refl init
  | cons q qs ih =>
    rw [List.foldl_cons]
    cases hq : pyFind s q with
    | none =>
      simp only [hq]
      exact ih init
    | some i =>
      simp only [hq]
      exact Nat.le_trans (ih _) (Nat.min_le_left init i)

/-- The min-fold underlying `earliestCut` is bounded by the index of any
occurrence of any listed pattern. -/
theorem earliestCutFold_le (s : Str) (ps : List Str) (init : Nat) (p : Str)
    (i : Nat) (hp : p ∈ ps) (h : pyFind s p = some i) :
    ps.foldl
      (fun acc q =>
        match pyFind s q with
        | some k => min acc k
        | none => acc)
      init ≤ i := by
  induction ps generalizing init with
  | nil => cases hp
  | cons q qs ih =>
    rcases List.mem_cons.mp hp with rfl | hmem
    · rw [List.foldl_cons]
      simp only [h]
      exact Nat.le_trans (earliestCutFold_le_init s qs _) (Nat.min_le_right init i)
    · rw [List.foldl_cons]
      exact ih _ hmem

/-- `earliestCut` never exceeds the length of the text. -/
theorem earliestCut_le_length (s : Str) : earliestCut s ≤ s.length :=
  earliestCutFold_le_init s dialoguePatterns s.length

/-- `earliestCut` is at most the index of any occurrence of a dialogue
pattern. -/
theorem earliestCut_le_occurs (s p : Str) (j : Nat) (hp : p ∈ dialoguePatterns)
    (h : p <+: s.drop j) : earliestCut s ≤ j := by
  obtain ⟨i, hfind, hij⟩ := pyFind_le_of_occurs s p j h
  exact Nat.le_trans (earliestCutFold_le s dialoguePatterns s.length p i hp hfind) hij

/-- A pattern is an infix exactly when it occurs as a prefix of some
tail. -/
theorem infix_iff_exists_drop (p s : Str) : p <:+: s ↔ ∃ j, p <+: s.drop j := by
  constructor
  · rintro ⟨u, v, rfl⟩
    refine ⟨u.length, ?_⟩
    rw [List.append_assoc, List.drop_left]
    exact ⟨v, rfl⟩
  · rintro ⟨j, v, hv⟩
    refine ⟨s.take j, v, ?_⟩
    rw [List.append_assoc, hv, List.take_append_drop]

/-- An infix of a `take` occurs strictly before the cut point. -/
theorem exists_occurrence_of_infix_take (p s : Str) (k : Nat) (hne : p ≠ [])
    (h : p <:+: s.take k) : ∃ j, j < k ∧ p <+: s.drop j := by
  obtain ⟨j, hj⟩ := (infix_iff_exists_drop p (s.take k)).mp h
  rw [List.drop_take] at hj
  have hjk : j < k := by
    by_contra hge
    have hk0 : k - j = 0 := by omega
    rw [hk0, List.take_zero, List.prefix_nil] at hj
    exact hne hj
  exact ⟨j, hjk, hj.trans ⟨(s.drop j).drop (k - j), List.take_append_drop _ _⟩⟩

/-- `pyStrip` only removes characters at the two ends: its result is an infix
of its argument. -/
theorem pyStrip_within (s : Str) : pyStrip s <:+: s := by
  unfold pyStrip
  have h1 : s.dropWhile pyIsSpace <:+ s := List.dropWhile_suffix pyIsSpace
  have h2 : ((s.dropWhile pyIsSpace).reverse.dropWhile pyIsSpace).reverse <+:
      s.dropWhile pyIsSpace := by
    have h3 : (s.dropWhile pyIsSpace).reverse.dropWhile pyIsSpace <:+
        (s.dropWhile pyIsSpace).reverse := List.dropWhile_suffix pyIsSpace
    rw [← List.reverse_reverse
      (List.dropWhile pyIsSpace (s.dropWhile pyIsSpace).reverse)] at h3
    exact List.reverse_suffix.mp h3
  obtain ⟨u, hu⟩ := h2
  obtain ⟨w, hw⟩ := h1
  exact ⟨w, u, by rw [List.append_assoc, hu, hw]⟩

/-- No dialogue pattern is empty. -/
theorem dialoguePatterns_ne_nil : ∀ p ∈ dialoguePatterns, p ≠ [] := by decide

/-- Marker-freedom of the truncation step: the output of the
earliest-marker cut contains no occurrence of any dialogue pattern. -/
theorem cutDialogue_no_marker (s p : Str) (hp : p ∈ dialoguePatterns) :
    ¬ p <:+: cutDialogue s := by
  intro hinf
  have hpne : p ≠ [] := dialoguePatterns_ne_nil p hp
  unfold cutDialogue at hinf
  by_cases hk : earliestCut s < s.length
  · rw [if_pos hk] at hinf
    have h2 : p <:+: s.take (earliestCut s) :=
      List.IsInfix.trans hinf (pyStrip_within _)
    obtain ⟨j, hjk, hocc⟩ := exists_occurrence_of_infix_take p s _ hpne h2
    have hle := earliestCut_le_occurs s p j hp hocc
    omega
  · rw [if_neg hk] at hinf
    obtain ⟨j, hocc⟩ := (infix_iff_exists_drop p s).mp hinf
    have hle := earliestCut_le_occurs s p j hp hocc
    have hdrop : s.drop j ≠ [] := by
      intro hnil
      rw [hnil, List.prefix_nil] at hocc
      exact hpne hocc
    have hjlen : j < s.length := by
      by_contra hge
      exact hdrop (List.drop_eq_nil_iff.mpr (by omega))
    omega

/-! ## Claims C1 and C2: the response sanitizer -/

/-- Claim C1, counterexample.  The claim asserts that the sanitized result
contains no dialogue-continuation marker.  Two concrete inputs refute the
universal:  on `"hi \n Userfoo\nb\nc\nd"` the line-limiting step rejoins
the stripped lines `"hi"` and `"Userfoo"` with a newline, so the final
result `"hi\nUserfoo"` contains the marker `"\nUser"` — one of the
patterns the code itself cuts at; and on `"Hello. uSeR: what now?"` the
mixed-capitalization variant `"uSeR:"` of `user:` is not in the code's
fixed pattern list, so it survives sanitization although the claim's
marker set is described as case-insensitive. -/
theorem c1_counterexample :
    ("\nUser".toList ∈ dialoguePatterns ∧
      clean_response ("hi \n Userfoo\nb\nc\nd".toList) = "hi\nUserfoo".toList ∧
      ("\nUser".toList <:+: clean_response ("hi \n Userfoo\nb\nc\nd".toList))) ∧
    (clean_response ("Hello. uSeR: what now?".toList) = "Hello. uSeR: what now?".toList ∧
      ("uSeR:".toList <:+: clean_response ("Hello. uSeR: what now?".toList))) := by
  decide

/-- Claim C1, amended.  The marker set is the code's fixed list of 18
patterns (three capitalizations each of `User:`/`Human:`/`Assistant:` and
their colonless leading-newline variants).  The truncation step cuts
immediately before the earliest occurrence of any listed pattern, so its
own output contains no listed pattern; on the concrete example the full
sanitizer yields exactly `"Hello there. *BEEP*"`, which contains no
`USER:`.  (The later line-limiting step can reintroduce a leading-newline
variant, and capitalizations outside the list are never cut — see the
counterexample.) -/
theorem c1_amended :
    (∀ (s p : Str), p ∈ dialoguePatterns → ¬ p <:+: cutDialogue s) ∧
    clean_response ("Hello there. *BEEP*\n\nUSER: what now?".toList)
      = "Hello there. *BEEP*".toList ∧
    ¬ ("USER:".toList <:+:
        clean_response ("Hello there. *BEEP*\n\nUSER: what now?".toList)) ∧
    ("Hello there. *BEEP*".toList <:+:
        clean_response ("Hello there. *BEEP*\n\nUSER: what now?".toList)) := by
  refine ⟨cutDialogue_no_marker, by decide, by decide, by decide⟩

/-- Witness for `c1_amended`: the universal part applied at a concrete
text and pattern. -/
theorem c1_amended_witness :
    ¬ ("User:".toList <:+: cutDialogue ("ok User: x".toList)) :=
  c1_amended.1 ("ok User: x".toList) ("User:".toList) (by decide)

/-- Claim C2, counterexample.  The claim asserts that when the cleanup
steps produce an empty string the returned value falls back to the
pre-sanitization text.  On the non-empty raw output `"User: hi"` the
cleanup steps do produce the empty string, but the value returned by
`generate_response` is the fixed fallback `"[ERROR] Failed to generate
response"`, not the pre-sanitization text. -/
theorem c2_counterexample :
    clean_response ("User: hi".toList) = [] ∧
    generate_response_fallback ("User: hi".toList)
      = "[ERROR] Failed to generate response".toList ∧
    generate_response_fallback ("User: hi".toList) ≠ "User: hi".toList := by
  decide

/-- Claim C2, amended: when the cleanup steps produce an empty string the
returned value falls back to the fixed error message, so sanitization
never returns the empty string for any raw model output. -/
theorem c2_amended (raw : Str) : generate_response_fallback raw ≠ [] := by
  unfold generate_response_fallback
  by_cases h : clean_response raw = []
  · rw [if_pos h]
    decide
  · rw [if_neg h]
    exact h

/-! ## Claims C3 and C10: the persona guard -/

/-- Claim C3, counterexample.  The claim asserts that
`"THIS IS ALL CAPS WITHOUT SOUND"` has its capital run rewritten to mixed
case.  But the trigger regex `[A-Z]{10,}` requires ten *consecutive*
uppercase letters; spaces break every run here (the longest run,
`WITHOUT`, has 7), so the guard does not fire and the text is returned
unmodified. -/
theorem c3_counterexample :
    validate_response ("THIS IS ALL CAPS WITHOUT SOUND".toList)
      = "THIS IS ALL CAPS WITHOUT SOUND".toList ∧
    hasCapsRun10 ("THIS IS ALL CAPS WITHOUT SOUND".toList) = false := by
  decide

/-- Claim C3, amended.  Any text containing one of the designated
sound-effect/system-tag tokens is left unmodified; the rewrite fires only
when the text has a run of 10 or more *consecutive* uppercase letters and
no such token.  `"SYSTEM ERROR MALFUNCTION *BEEP*"` is left unmodified (it
contains `*BEEP*`); `"THIS IS ALL CAPS WITHOUT SOUND"` is also left
unmodified because spaces break its capital runs below ten; a no-token
text with a genuine run, `"THISISALLCAPS WITHOUT SOUND"`, is rewritten to
mixed case. -/
theorem c3_amended :
    (∀ s : Str, soundTokens.any (fun tok => pyContains s tok) = true →
      validate_response s = s) ∧
    validate_response ("SYSTEM ERROR MALFUNCTION *BEEP*".toList)
      = "SYSTEM ERROR MALFUNCTION *BEEP*".toList ∧
    validate_response ("THIS IS ALL CAPS WITHOUT SOUND".toList)
      = "THIS IS ALL CAPS WITHOUT SOUND".toList ∧
    validate_response ("THISISALLCAPS WITHOUT SOUND".toList)
      = "Thisisallcaps Without Sound".toList := by
  refine ⟨?_, by decide, by decide, by decide⟩
  intro s h
  unfold validate_response
  by_cases hs : s = []
  · rw [if_pos hs]
  · rw [if_neg hs, h]
    simp

/-- Witness for `c3_amended`: the sound-token exemption applied at a
concrete text whose capital run far exceeds ten. -/
theorem c3_amended_witness :
    validate_response ("CATASTROPHIC FAILURE IMMINENT *BEEP*".toList)
      = "CATASTROPHIC FAILURE IMMINENT *BEEP*".toList :=
  c3_amended.1 ("CATASTROPHIC FAILURE IMMINENT *BEEP*".toList) (by decide)



/-- Claim C10, counterexample.  On `"AAAAAAAAAA BCDE*"` the guard is
triggered (ten consecutive `A`s, no sound token).  The claim says the run
`BCDE` is exempt because it is immediately followed by `*`; but Python's
regex engine backtracks the greedy `[A-Z]{3,}` one character when the
lookahead fails, matching `BCD` and rewriting it, so the code produces
`"Aaaaaaaaaa BcdE*"` where the claim's rule produces
`"Aaaaaaaaaa BCDE*"`. -/
theorem c10_counterexample :
    validate_response ("AAAAAAAAAA BCDE*".toList) = "Aaaaaaaaaa BcdE*".toList ∧
    claimPersonaGuard ("AAAAAAAAAA BCDE*".toList) = "Aaaaaaaaaa BCDE*".toList ∧
    validate_response ("AAAAAAAAAA BCDE*".toList)
      ≠ claimPersonaGuard ("AAAAAAAAAA BCDE*".toList) := by
  decide

/-- Claim C10, amended.  When the rewrite is triggered it is applied by
left-to-right regex matching with single-character lookarounds and greedy
backtracking: a maximal run of `L ≥ 3` uppercase letters not adjacent to
the guard characters is rewritten whole; a run followed by `*` or `]` is
rewritten on its first `L - 1` letters when `L ≥ 4` and left alone when
`L = 3`; a run preceded by `*` or `[` is matched from its second letter
onward under the same rules.  Concretely: plain runs are all rewritten;
`"BCDE*"` becomes `"BcdE*"`; `"*BCDEF"` becomes `"*BCdef"`; `"BCD*"` and
`"[BCD]"` are left alone. -/
theorem c10_amended :
    validate_response ("AAAAAAAAAA BCDEF GHIJK".toList)
      = "Aaaaaaaaaa Bcdef Ghijk".toList ∧
    validate_response ("AAAAAAAAAA BCDE*".toList) = "Aaaaaaaaaa BcdE*".toList ∧
    validate_response ("AAAAAAAAAA *BCDEF".toList) = "Aaaaaaaaaa *BCdef".toList ∧
    validate_response ("AAAAAAAAAA BCD*".toList) = "Aaaaaaaaaa BCD*".toList ∧
    validate_response ("AAAAAAAAAA [BCD]".toList) = "Aaaaaaaaaa [BCD]".toList := by
  decide

/-! ## Claims C5 and C6: context window and prompt formatting -/

/-- Claim C5, counterexample.  The claim quantifies over every cap `K`;
for `K = 0` the Python slice `history[-0:]` is `history[0:]`, the whole
list, so a one-entry history renders one entry, not `min(1, 0) = 0`. -/
theorem c5_counterexample :
    pySliceLast [ChatMsg.mk ("user".toList) ("m1".toList)] 0
      = [ChatMsg.mk ("user".toList) ("m1".toList)] ∧
    (pySliceLast [ChatMsg.mk ("user".toList) ("m1".toList)] 0).length ≠ min 1 0 := by
  decide

/-- Claim C5, amended.  For every cap `K ≥ 1` the history slice passed to
the formatter has exactly `min N K` entries and is a suffix of the
history, i.e. the most recent entries in original order; the
repository-side window (`$slice: -limit`) satisfies the same bound for
every `limit`, including 0.  (Only the degenerate Python slice `[-0:]`
breaks the claim, hence the restriction to `K ≥ 1`.) -/
theorem c5_amended :
    (∀ (ctx : ChatContext), 1 ≤ ctx.max_context_messages →
      (pySliceLast ctx.message_history ctx.max_context_messages).length
          = min ctx.message_history.length ctx.max_context_messages ∧
      pySliceLast ctx.message_history ctx.max_context_messages
          <:+ ctx.message_history ∧
      format_messages_for_llm ctx
        = ChatMsg.mk ("system".toList) ctx.system_prompt ::
            (pySliceLast ctx.message_history ctx.max_context_messages ++
              [ChatMsg.mk ("user".toList) ctx.user_message])) ∧
    (∀ (msgs : List ChatMsg) (k : Nat),
      (mongoSliceLast msgs k).length = min msgs.length k ∧
      mongoSliceLast msgs k <:+ msgs) := by
  constructor
  · intro ctx hk
    have hk0 : ctx.max_context_messages ≠ 0 := by omega
    refine ⟨?_, ?_, rfl⟩
    · unfold pySliceLast
      rw [if_neg hk0, List.length_drop]
      omega
    · unfold pySliceLast
      rw [if_neg hk0]
      exact List.drop_suffix _ _
  · intro msgs k
    refine ⟨?_, List.drop_suffix _ _⟩
    unfold mongoSliceLast
    rw [List.length_drop]
    omega

/-- Witness for `c5_amended`: the slice bound at a concrete context with
the default cap 4 and six history entries. -/
theorem c5_amended_witness :
    (pySliceLast
        [ChatMsg.mk ("user".toList) ("a".toList),
         ChatMsg.mk ("assistant".toList) ("b".toList),
         ChatMsg.mk ("user".toList) ("c".toList),
         ChatMsg.mk ("assistant".toList) ("d".toList),
         ChatMsg.mk ("user".toList) ("e".toList),
         ChatMsg.mk ("assistant".toList) ("f".toList)] 4).length = min 6 4 :=
  (c5_amended.1
    ⟨"hi".toList, none, [],
      [ChatMsg.mk ("user".toList) ("a".toList),
       ChatMsg.mk ("assistant".toList) ("b".toList),
       ChatMsg.mk ("user".toList) ("c".toList),
       ChatMsg.mk ("assistant".toList) ("d".toList),
       ChatMsg.mk ("user".toList) ("e".toList),
       ChatMsg.mk ("assistant".toList) ("f".toList)], 4⟩
    (by decide)).1

/-- `joinNl` on a cons with a non-empty tail emits the head, a newline,
and the joined tail. -/
theorem joinNl_cons_of_ne_nil (x : Str) (ys : List Str) (h : ys ≠ []) :
    joinNl (x :: ys) = x ++ '\n' :: joinNl ys := by
  cases ys with
  | nil => exact absurd rfl h
  | cons y ys => rfl

/-- The rendering of a system-role entry. -/
theorem renderMsg_system (c : Str) :
    renderMsg (ChatMsg.mk ("system".toList) c) = some ("System: ".toList ++ c) := rfl

/-- The rendering of a user-role entry. -/
theorem renderMsg_user (c : Str) :
    renderMsg (ChatMsg.mk ("user".toList) c) = some ("User: ".toList ++ c) := rfl

/-- The bare assistant cue is a suffix of every formatted prompt. -/
theorem formatted_ends_with_cue (ls : List Str) :
    "Assistant:".toList <:+ joinNl (ls ++ ["Assistant:".toList]) := by
  induction ls with
  | nil => exact List.suffix_refl _
  | cons x ls ih =>
    rw [List.cons_append,
      joinNl_cons_of_ne_nil x (ls ++ ["Assistant:".toList]) (by simp)]
    refine List.IsSuffix.trans ih ?_
    refine List.IsSuffix.trans (List.suffix_cons '\n' _) ?_
    exact List.suffix_append x _

/-- Claim C6.  For every system prompt, history, and user message, the
formatter emits the system line, the rendered history entries, the user
line, and the bare `Assistant:` cue, in that order, joined by newlines;
an entry with an unrecognized role is silently dropped from the rendering
wherever it occurs; and the cue is always the final line. -/
theorem c6_formatter :
    (∀ (sys user : Str) (hist : List ChatMsg),
      format_messages
          (ChatMsg.mk ("system".toList) sys ::
            (hist ++ [ChatMsg.mk ("user".toList) user]))
        = ("System: ".toList ++ sys) ++ '\n' ::
            joinNl (hist.filterMap renderMsg ++
              ["User: ".toList ++ user, "Assistant:".toList])) ∧
    (∀ (pre post : List ChatMsg) (m : ChatMsg), renderMsg m = none →
      format_messages (pre ++ m :: post) = format_messages (pre ++ post)) ∧
    (∀ msgs : List ChatMsg, "Assistant:".toList <:+ format_messages msgs) := by
  refine ⟨?_, ?_, ?_⟩
  · intro sys user hist
    unfold format_messages
    rw [List.filterMap_cons_some (renderMsg_system sys),
      List.filterMap_append,
      List.filterMap_cons_some (renderMsg_user user),
      List.filterMap_nil, List.cons_append,
      joinNl_cons_of_ne_nil _ _ (by simp),
      List.append_assoc (hist.filterMap renderMsg)]
    rfl
  · intro pre post m hm
    unfold format_messages
    rw [List.filterMap_append, List.filterMap_append, List.filterMap_cons, hm]
  · intro msgs
    exact formatted_ends_with_cue (msgs.filterMap renderMsg)

/-- Witness for `c6_formatter`: an entry with the unrecognized role
`tool` is dropped from the rendering. -/
theorem c6_formatter_witness :
    format_messages
        [ChatMsg.mk ("system".toList) ("s".toList),
         ChatMsg.mk ("tool".toList) ("x".toList),
         ChatMsg.mk ("user".toList) ("u".toList)]
      = format_messages
          [ChatMsg.mk ("system".toList) ("s".toList),
           ChatMsg.mk ("user".toList) ("u".toList)] :=
  c6_formatter.2.1 [ChatMsg.mk ("system".toList) ("s".toList)]
    [ChatMsg.mk ("user".toList) ("u".toList)]
    (ChatMsg.mk ("tool".toList) ("x".toList)) (by decide)

/-! ## Claims C4, C7, C8, C9: the turn pipeline -/

/-- When no unexpected error escapes the context build, the stage always
succeeds (repository errors are caught inside it). -/
theorem build_chat_context_ok (env : TurnEnv) (m : Str) (c : Option Str)
    (hb : env.buildEscape = false) :
    ∃ ctx, build_chat_context env m c = Except.ok ctx := by
  unfold build_chat_context
  rw [hb]
  simp only [Bool.false_eq_true, if_false]
  cases c with
  | none => exact ⟨_, rfl⟩
  | some cid =>
    show ∃ ctx, (if conversation_exists env.store cid = true then
        Except.ok (ChatContext.mk m (some cid) get_system_prompt
          (get_recent_messages env.store cid 4) 4)
      else Except.ok (ChatContext.mk m none get_system_prompt [] 4)) = Except.ok ctx
    by_cases he : conversation_exists env.store cid = true
    · rw [if_pos he]
      exact ⟨_, rfl⟩
    · rw [if_neg he]
      exact ⟨_, rfl⟩

/-- Claim C4: every turn returns a well-formed result, and on any
unhandled exception at any stage the result carries the persona
system-error message and `conversation_id or request.conversation_id or
"error"`. -/
theorem c4_error_path :
    (∀ (env : TurnEnv) (req : ChatRequest) (cid : Option Str) (now : Nat),
      ∃ m i, process_chat env req cid now = ⟨m, i, now⟩) ∧
    (∀ (env : TurnEnv) (req : ChatRequest) (cid : Option Str) (now : Nat),
      env.buildEscape = true ∨ env.gen = GenOutcome.escape ∨ env.saveEscape = true →
      process_chat env req cid now
        = ⟨sysErrMsg, pyOrError (pyOrOpt cid req.conversation_id), now⟩) := by
  constructor
  · intro env req cid now
    unfold process_chat
    cases build_chat_context env req.message (pyOrOpt cid req.conversation_id) with
    | error e => exact ⟨_, _, rfl⟩
    | ok ctx =>
      cases generate_ai_response env.gen with
      | error e => exact ⟨_, _, rfl⟩
      | ok ai =>
        cases hs : env.saveEscape with
        | true => exact ⟨_, _, rfl⟩
        | false => exact ⟨_, _, rfl⟩
  · intro env req cid now h
    rcases h with hb | hg | hs
    · unfold process_chat build_chat_context
      rw [hb]
      rfl
    · unfold process_chat
      cases hbe : env.buildEscape with
      | true =>
        unfold build_chat_context
        rw [hbe]
        rfl
      | false =>
        obtain ⟨ctx, hctx⟩ := build_chat_context_ok env req.message _ hbe
        rw [hctx, hg]
        rfl
    · unfold process_chat
      cases hbe : env.buildEscape with
      | true =>
        unfold build_chat_context
        rw [hbe]
        rfl
      | false =>
        obtain ⟨ctx, hctx⟩ := build_chat_context_ok env req.message _ hbe
        rw [hctx]
        cases hge : generate_ai_response env.gen with
        | error e => rfl
        | ok ai =>
          rw [hs]
          rfl


/-- Witness for `c4_error_path`: with no known conversation id the error
response carries the `"error"` sentinel. -/
theorem c4_error_path_witness :
    process_chat c4Env ⟨"hello".toList, none⟩ none 0
      = ⟨sysErrMsg, "error".toList, 0⟩ :=
  c4_error_path.2 c4Env ⟨"hello".toList, none⟩ none 0 (Or.inl rfl)

/-- Claim C7: a timed-out inference is a recognized outcome, not an
exception: the stage returns the persona timeout message, the turn's
response carries it, and it differs from the generic failure messages. -/
theorem c7_timeout (env : TurnEnv) (req : ChatRequest) (cid : Option Str)
    (now : Nat) (hgen : env.gen = GenOutcome.timeout)
    (hb : env.buildEscape = false) (hs : env.saveEscape = false) :
    generate_ai_response env.gen = Except.ok timeoutMsg ∧
    (process_chat env req cid now).message = timeoutMsg ∧
    timeoutMsg ≠ malfunctionMsg ∧
    timeoutMsg ≠ sysErrMsg := by
  refine ⟨by rw [hgen]; rfl, ?_, by decide, by decide⟩
  unfold process_chat
  obtain ⟨ctx, hctx⟩ := build_chat_context_ok env req.message _ hb
  rw [hctx, hgen, hs]
  rfl


/-- Witness for `c7_timeout`. -/
theorem c7_timeout_witness :
    (process_chat c7Env ⟨"hello".toList, none⟩ none 0).message = timeoutMsg :=
  (c7_timeout c7Env ⟨"hello".toList, none⟩ none 0 rfl rfl rfl).2.1


/-- Claim C8, counterexample.  With the Store append failing
(`appendOk = false`), `process_chat` returns the resolved conversation id
`"abc"`, not the `"error"` sentinel the claim requires: the append's
success flag is ignored by `_save_chat_exchange` and
`ConversationService.add_message` swallows every exception. -/
theorem c8_counterexample :
    c8Env.save.appendOk = false ∧
    process_chat c8Env ⟨"hello".toList, none⟩ (some ("abc".toList)) 0
      = ⟨"Hi there. *BEEP*".toList, "abc".toList, 0⟩ ∧
    "abc".toList ≠ "error".toList := by
  refine ⟨rfl, ?_, by decide⟩
  decide

/-- Claim C8, amended.  When the persistence stage runs without an
escaping exception, `process_chat` returns the generated text and the
resolved conversation id regardless of whether the Store append succeeds
(its success flag is ignored); the `"error"` sentinel arises only when an
exception is caught inside the persistence stage and no conversation id
is known. -/
theorem c8_amended :
    (∀ (env : TurnEnv) (req : ChatRequest) (cid : Str) (now : Nat) (a : Str)
        (msgs : List ChatMsg),
      env.buildEscape = false → env.saveEscape = false →
      env.save.caughtExc = false →
      generate_ai_response env.gen = Except.ok a →
      storeLookup env.store cid = some msgs → cid ≠ [] →
      process_chat env req (some cid) now = ⟨a, cid, now⟩) ∧
    (∀ (senv : SaveEnv) (st : Store) (ctx : ChatContext),
      senv.caughtExc = true → ctx.conversation_id = none →
      save_chat_exchange senv st ctx = "error".toList) := by
  constructor
  · intro env req cid now a msgs hb hse hsc hgen hlook hrid
    have hex : conversation_exists env.store cid = true := by
      unfold conversation_exists
      rw [hlook]
      rfl
    have hor : pyOrOpt (some cid) req.conversation_id = some cid := by
      show (if cid = [] then req.conversation_id else some cid) = some cid
      rw [if_neg hrid]
    have h1 : build_chat_context env req.message (some cid)
        = Except.ok (ChatContext.mk req.message (some cid) get_system_prompt
            (get_recent_messages env.store cid 4) 4) := by
      unfold build_chat_context
      rw [hb]
      show (if conversation_exists env.store cid = true then
          Except.ok (ChatContext.mk req.message (some cid) get_system_prompt
            (get_recent_messages env.store cid 4) 4)
        else Except.ok (ChatContext.mk req.message none get_system_prompt [] 4))
          = _
      rw [if_pos hex]
    have hsave : save_chat_exchange env.save env.store
        (ChatContext.mk req.message (some cid) get_system_prompt
          (get_recent_messages env.store cid 4) 4) = cid := by
      unfold save_chat_exchange
      rw [hsc]
      show (match storeLookup env.store cid with
        | some _ => cid
        | none =>
          match env.save.create with
          | CreateOutcome.created newId => newId
          | CreateOutcome.createExc => pyOrError (some cid)) = cid
      rw [hlook]
    unfold process_chat
    rw [hor, h1, hgen, hse]
    show ChatResponse.mk a (save_chat_exchange env.save env.store
        (ChatContext.mk req.message (some cid) get_system_prompt
          (get_recent_messages env.store cid 4) 4)) now = ⟨a, cid, now⟩
    rw [hsave]
  · intro senv st ctx hsc hnone
    unfold save_chat_exchange
    rw [hsc, hnone]
    rfl

/-- Witness for `c8_amended`: the concrete append-failure environment. -/
theorem c8_amended_witness :
    process_chat c8Env ⟨"hello".toList, none⟩ (some ("abc".toList)) 0
      = ⟨"Hi there. *BEEP*".toList, "abc".toList, 0⟩ :=
  c8_amended.1 c8Env ⟨"hello".toList, none⟩ ("abc".toList) 0
    ("Hi there. *BEEP*".toList) [] rfl rfl rfl (by rfl) rfl (by decide)

/-- Claim C9: a turn invoked with a conversation id absent from the Store
does not fail: the context silently degrades to an empty history with no
conversation id, and the response carries the freshly created id, which —
under the Store's contract that generated ids are globally fresh — differs
from the requested missing one. -/
theorem c9_missing_conversation (env : TurnEnv) (req : ChatRequest)
    (rid nid : Str) (now : Nat) (a : Str)
    (hmiss : storeLookup env.store rid = none)
    (hb : env.buildEscape = false) (hse : env.saveEscape = false)
    (hsc : env.save.caughtExc = false)
    (hcr : env.save.create = CreateOutcome.created nid)
    (hgen : generate_ai_response env.gen = Except.ok a)
    (hrid : rid ≠ []) (hfresh : nid ≠ rid) :
    build_chat_context env req.message (some rid)
        = Except.ok (ChatContext.mk req.message none get_system_prompt [] 4) ∧
    process_chat env req (some rid) now = ⟨a, nid, now⟩ ∧
    (process_chat env req (some rid) now).conversation_id ≠ rid := by
  have hex : conversation_exists env.store rid = false := by
    unfold conversation_exists
    rw [hmiss]
    rfl
  have h1 : build_chat_context env req.message (some rid)
      = Except.ok (ChatContext.mk req.message none get_system_prompt [] 4) := by
    unfold build_chat_context
    rw [hb]
    show (if conversation_exists env.store rid = true then
        Except.ok (ChatContext.mk req.message (some rid) get_system_prompt
          (get_recent_messages env.store rid 4) 4)
      else Except.ok (ChatContext.mk req.message none get_system_prompt [] 4))
        = _
    rw [hex]
    rfl
  have hor : pyOrOpt (some rid) req.conversation_id = some rid := by
    show (if rid = [] then req.conversation_id else some rid) = some rid
    rw [if_neg hrid]
  have hsave : save_chat_exchange env.save env.store
      (ChatContext.mk req.message none get_system_prompt [] 4) = nid := by
    unfold save_chat_exchange
    rw [hsc, hcr]
    rfl
  have h2 : process_chat env req (some rid) now = ⟨a, nid, now⟩ := by
    unfold process_chat
    rw [hor, h1, hgen, hse]
    show ChatResponse.mk a (save_chat_exchange env.save env.store
        (ChatContext.mk req.message none get_system_prompt [] 4)) now
      = ⟨a, nid, now⟩
    rw [hsave]
  refine ⟨h1, h2, ?_⟩
  rw [h2]
  exact hfresh


/-- Witness for `c9_missing_conversation`. -/
theorem c9_missing_conversation_witness :
    process_chat c9Env ⟨"hello".toList, none⟩ (some ("missing1".toList)) 0
      = ⟨"Hi there. *BEEP*".toList, "fresh1".toList, 0⟩ :=
  (c9_missing_conversation c9Env ⟨"hello".toList, none⟩ ("missing1".toList)
    ("fresh1".toList) 0 ("Hi there. *BEEP*".toList) rfl rfl rfl rfl rfl
    (by rfl) (by decide) (by decide)).2.1
